import Mathlib

/-!
Shallow embedding of the Justdownloads4u server (src/app.py, src/main.py,
src/models.py): the download lifecycle manager and the /info metadata
projection, with Python dictionary/string semantics made explicit and the
external yt-dlp engine treated as a black-box parameter.
-/

namespace JD

/-- Python truthiness of an optional string (None or str): None and the empty
string are falsy, every other string is truthy (used for `if not url` and
`elif quality`). -/
def pyTruthy : Option String → Bool
  | none => false
  | some s => s ≠ ""

/-- Python `d.get(k)` on a JSON-like dictionary field. `none` models an absent
key, `some none` a key present with value None, `some (some v)` a present
value; `d.get(k)` yields None when the key is absent. -/
def pyGet {α : Type} (field : Option (Option α)) : Option α := field.getD none

/-- Python `d.get(k, default)`: the stored value (possibly None) when the key
is present, the default otherwise. -/
def pyGetD {α : Type} (field : Option (Option α)) (d : α) : Option α :=
  field.getD (some d)

/-- Python `s.startswith(pre)`. -/
def pyStartswith (s pre : String) : Bool := pre.data.isPrefixOf s.data

/-- Replace every leftmost, non-overlapping occurrence of `pat` by `repl`, as
Python `str.replace(pat, repl)` does. Fuel-indexed recursion over the subject
characters; fuel equal to the subject length suffices because every step
consumes at least one character whenever `pat` is non-empty, which holds for
every pattern this code base uses. -/
def pyReplaceAux (pat repl : List Char) : Nat → List Char → List Char
  | _, [] => []
  | 0, s => s
  | fuel+1, c :: rest =>
    if pat.isPrefixOf (c :: rest) then
      repl ++ pyReplaceAux pat repl fuel ((c :: rest).drop pat.length)
    else
      c :: pyReplaceAux pat repl fuel rest

/-- Python `s.replace(pat, repl)`. -/
def pyReplace (s pat repl : String) : String :=
  ⟨pyReplaceAux pat.data repl.data s.data.length s.data⟩

/-- `os.path.join(a, b)` for a relative second component. -/
def osPathJoin (a b : String) : String := a ++ "/" ++ b

/-- A filesystem is the finite set of existing paths, each held at most once.
`os.remove p` deletes the file at `p`: afterwards `os.path.exists p` is
false. -/
def osRemove (fs : List String) (p : String) : List String :=
  fs.filter (fun q => q ≠ p)

/-- `temp_filename = f"{uuid.uuid4()}.mp4"` joined onto the shared temp
directory (app.py lines 81-82, main.py lines 161-162); `u` stands for the
random unique identifier drawn for the request, `tempDir` for the
process-wide `TEMP_DIR` computed once at startup. -/
def tempFilepath (tempDir u : String) : String := osPathJoin tempDir (u ++ ".mp4")

/-- The format selector string built from the optional `quality` query
parameter (app.py lines 88-94, main.py lines 166-172): `'audio'` maps to
`bestaudio/best`; any other truthy quality has every `'p'` removed by
`quality.replace('p', '')` and is spliced into a height bound; a missing or
empty quality falls through to `bestvideo+bestaudio/best`. -/
def formatString (quality : Option String) : String :=
  if quality = some "audio" then "bestaudio/best"
  else if pyTruthy quality then
    "bestvideo[height<=" ++ pyReplace (quality.getD "") "p" "" ++
      "]+bestaudio/bestvideo+bestaudio/best"
  else
    "bestvideo+bestaudio/best"

/-- The yt-dlp option bag the orchestrator hands to the engine (app.py lines
97-108, main.py lines 330-339); a postprocessor is the
(key, preferredcodec, preferredquality) triple. -/
structure YdlOpts where
  format : String
  outtmpl : String
  merge_output_format : String
  postprocessors : List (String × String × String)
deriving DecidableEq

/-- Build the option bag: the FFmpegExtractAudio postprocessor is present iff
quality == 'audio'. -/
def build_ydl_opts (quality : Option String) (temp_filepath : String) : YdlOpts :=
  { format := formatString quality
    outtmpl := temp_filepath
    merge_output_format := "mp4"
    postprocessors :=
      if quality = some "audio" then [("FFmpegExtractAudio", "mp3", "192")] else [] }

/-- Title sanitization: `title.replace('/', '_').replace('\\', '_')`
(app.py line 119, main.py line 350). -/
def sanitizeTitle (t : String) : String :=
  pyReplace (pyReplace t "/" "_") "\\" "_"

/-- One raw format dictionary from the engine metadata: each field is a
possibly-absent key holding a possibly-None value. -/
structure Format where
  format_id : Option (Option String) := none
  ext : Option (Option String) := none
  resolution : Option (Option String) := none
  format_note : Option (Option String) := none
  filesize : Option (Option Int) := none
deriving DecidableEq

/-- Metadata returned by `ydl.extract_info`: all keys may be absent or hold
None. -/
structure Metadata where
  title : Option (Option String) := none
  thumbnail : Option (Option String) := none
  formats : List Format := []
deriving DecidableEq

/-- The public format entry (models.py `VideoFormat` / the app.py response
dictionary). -/
structure VideoFormat where
  format_id : Option String
  ext : Option String
  resolution : Option String
  note : Option String
  filesize : Option Int
deriving DecidableEq

/-- Projection of one raw format onto the public schema (app.py lines 48-54,
main.py lines 121-127): every field read with `f.get(...)`. -/
def projectFormat (f : Format) : VideoFormat :=
  { format_id := pyGet f.format_id
    ext := pyGet f.ext
    resolution := pyGet f.resolution
    note := pyGet f.format_note
    filesize := pyGet f.filesize }

/-- The app.py comprehension filter for one entry (line 55):
`f.get('resolution') or f.get('format_note', '').startswith('audio only')`.
Evaluating `.startswith` raises AttributeError when `format_note` is present
with value None and `resolution` is falsy (Python `or` short-circuits, so a
truthy resolution never reaches the second operand). -/
def appKeep (f : Format) : Except String Bool :=
  if pyTruthy (pyGet f.resolution) then .ok true
  else
    match pyGetD f.format_note "" with
    | none => .error "AttributeError: NoneType object has no attribute startswith"
    | some s => .ok (pyStartswith s "audio only")

/-- The app.py list comprehension over `formats` (lines 47-56): entries are
examined in order, a kept entry is projected, and an AttributeError raised at
any entry aborts the whole comprehension. -/
def appFormats : List Format → Except String (List VideoFormat)
  | [] => .ok []
  | f :: rest =>
    match appKeep f with
    | .error e => .error e
    | .ok keep =>
      match appFormats rest with
      | .error e => .error e
      | .ok tail => .ok (if keep then projectFormat f :: tail else tail)

/-- The main.py comprehension filter for one entry (line 158):
`f.get('resolution') or (f.get('format_note') and
f.get('format_note', '').startswith('audio only'))`. The extra truthiness
guard on `format_note` makes the predicate total: a None note is falsy and
the entry is dropped. When the guard holds the note is some non-empty string,
so the inner `.getD ""` never supplies its default. -/
def mainKeep (f : Format) : Bool :=
  pyTruthy (pyGet f.resolution) ||
    (pyTruthy (pyGet f.format_note) &&
      pyStartswith ((pyGetD f.format_note "").getD "") "audio only")

/-- The main.py list comprehension over `formats` (lines 150-159). -/
def mainFormats : List Format → List VideoFormat
  | [] => []
  | f :: rest =>
    if mainKeep f then projectFormat f :: mainFormats rest else mainFormats rest

/-- Outcome of one `/info` request, as surfaced over HTTP. -/
inductive InfoResult where
  | badRequest (error : String)
  | ok (title : Option String) (thumbnail : Option String) (formats : List VideoFormat)
  | serverError (error : String) (details : String)
deriving DecidableEq

/-- The outcome of the one `ydl.extract_info(url, download=False)` call a
request makes: the black-box engine either returns metadata or raises with a
message. -/
inductive FetchResult where
  | ok (metadata : Metadata)
  | err (msg : String)
deriving DecidableEq

/-- The app.py `/info` handler (lines 24-66): validate the url, fetch
metadata, build the filtered projection; any exception in the try block
(engine failure or the comprehension AttributeError) is answered with the
500 payload. -/
def app_get_info (url : Option String) (engine : FetchResult) : InfoResult :=
  if pyTruthy url = false then .badRequest "No URL provided."
  else
    match engine with
    | .err e => .serverError
        "Failed to fetch video information. The URL might be private or invalid." e
    | .ok md =>
      match appFormats md.formats with
      | .error e => .serverError
          "Failed to fetch video information. The URL might be private or invalid." e
      | .ok fmts => .ok (pyGet md.title) (pyGet md.thumbnail) fmts

/-- The main.py `/info` handler (lines 108-140, stripped of the advisory
bot-message enrichment which only rewrites the detail text): the comprehension
is total, so only an engine failure reaches the 500 branch. -/
def main_get_info (url : Option String) (engine : FetchResult) : InfoResult :=
  if pyTruthy url = false then .badRequest "No URL provided."
  else
    match engine with
    | .err e => .serverError "Failed to fetch video information" e
    | .ok md => .ok (pyGet md.title) (pyGet md.thumbnail) (mainFormats md.formats)

/-- Outcome of the one `ydl.extract_info(url, download=True)` call a download
request makes: the black-box engine receives the option bag, mutates the
shared temp directory, and either returns metadata or raises with a message.
`fsAfter` is the temp-directory contents when the call returns or raises. -/
inductive EngineResult where
  | ok (info : Metadata) (fsAfter : List String)
  | err (msg : String) (fsAfter : List String)
deriving DecidableEq

/-- The `if os.path.exists(p): os.remove(p)` idiom. -/
def removeIfExists (fs : List String) (p : String) : List String :=
  if p ∈ fs then osRemove fs p else fs

/-- The download error handler (app.py lines 141-148, main.py lines 361-369):
delete the currently tracked temp path if it exists, then delete its
`.mp4`-to-`.mp3` rewrite if that exists. -/
def errorCleanup (fs : List String) (tempPath : String) : List String :=
  removeIfExists (removeIfExists fs tempPath) (pyReplace tempPath ".mp4" ".mp3")

/-- Deriving the suggested download filename (app.py lines 119-122, main.py
lines 350-351): `info.get('title', 'media')` defaults only an absent key, so
a present-but-None title reaches `.replace` and raises AttributeError; the
extension is `.mp3` iff quality == 'audio'. -/
def finalFilename (info : Metadata) (quality : Option String) : Except String String :=
  match pyGetD info.title "media" with
  | none => .error "AttributeError: NoneType object has no attribute replace"
  | some t =>
    .ok (sanitizeTitle t ++ (if quality = some "audio" then ".mp3" else ".mp4"))

/-- What one `/download` request surfaces over HTTP. -/
inductive HttpResult where
  | badRequest (error : String)
  | serverError (error : String) (details : String)
  | fileResponse (path : String) (downloadName : String)
deriving DecidableEq

/-- Full outcome of one `/download` request: the HTTP answer, the temp
directory contents when the handler returns, and the path registered for
post-response cleanup when a file response was produced. -/
structure DownloadResult where
  response : HttpResult
  fs : List String
  cleanupRegistered : Option String
deriving DecidableEq

/-- The temp path the handler tracks after the extraction call returned:
for quality == 'audio' the tracked `.mp4` path is rewritten to `.mp3`
(`temp_filepath = temp_filepath.replace('.mp4', '.mp3')`, app.py lines
113-114, main.py lines 179-180); otherwise it stays the allocated path. -/
def trackedPath (tempDir u : String) (quality : Option String) : String :=
  if quality = some "audio" then pyReplace (tempFilepath tempDir u) ".mp4" ".mp3"
  else tempFilepath tempDir u

/-- The download handler shared by both variants (app.py lines 69-152, main.py
lines 148-225): validate the url; allocate the temp path from the drawn
identifier `u`; build the option bag and invoke the engine on it; on success
the tracked path is `trackedPath` (audio rewrite applied), the final filename
is derived, cleanup is registered and the file is answered; on any exception
run `errorCleanup` on the currently tracked path and answer 500 with the
underlying message. -/
def download_video (tempDir u : String) (url quality : Option String)
    (engine : YdlOpts → EngineResult) (fs : List String) : DownloadResult :=
  if pyTruthy url = false then
    { response := .badRequest "No URL provided.", fs := fs, cleanupRegistered := none }
  else
    match engine (build_ydl_opts quality (tempFilepath tempDir u)) with
    | .err msg fsAfter =>
      { response := .serverError
          "Failed to process the video. The URL may be private, invalid, or the site may have updated."
          msg
        fs := errorCleanup fsAfter (tempFilepath tempDir u)
        cleanupRegistered := none }
    | .ok info fsAfter =>
      match finalFilename info quality with
      | .error msg =>
        { response := .serverError
            "Failed to process the video. The URL may be private, invalid, or the site may have updated."
            msg
          fs := errorCleanup fsAfter (trackedPath tempDir u quality)
          cleanupRegistered := none }
      | .ok name =>
        { response := .fileResponse (trackedPath tempDir u quality) name
          fs := fsAfter
          cleanupRegistered := some (trackedPath tempDir u quality) }

/-- `os.remove` as a fallible call: deletion of `p` either succeeds, or raises
an OSError (file vanished, permissions); `ok` selects the outcome. -/
def osRemoveE (fs : List String) (p : String) (ok : Bool) : Except String (List String) :=
  if ok then .ok (osRemove fs p) else .error "OSError: cannot delete file"

/-- The app.py post-response cleanup hook (lines 125-132): try to delete the
tracked temp file; any exception is caught and logged; the already-produced
response object is returned either way. -/
def cleanup (response : HttpResult) (fs : List String) (temp_filepath : String)
    (removeOk : Bool) : HttpResult × List String :=
  match osRemoveE fs temp_filepath removeOk with
  | .ok fs1 => (response, fs1)
  | .error _ => (response, fs)

/-- The main.py background cleanup task (lines 29-35): delete the path if it
exists, swallowing any exception; the task has no channel back to the
response at all. -/
def cleanup_file (fs : List String) (path : String) (removeOk : Bool) : List String :=
  if path ∈ fs then
    match osRemoveE fs path removeOk with
    | .ok fs1 => fs1
    | .error _ => fs
  else fs

end JD

/-!
Helper lemmas about the Python-string and filesystem primitives.
-/

namespace JD

theorem string_append_left_cancel {s x y : String} (h : s ++ x = s ++ y) : x = y := by
  have hd := congrArg String.data h
  simp only [String.data_append] at hd
  exact String.ext (List.append_cancel_left hd)

theorem string_append_right_cancel {x y s : String} (h : x ++ s = y ++ s) : x = y := by
  have hd := congrArg String.data h
  simp only [String.data_append] at hd
  exact String.ext (List.append_cancel_right hd)

theorem pyReplaceAux_single_empty (a : Char) (l : List Char) :
    ∀ fuel, l.length ≤ fuel →
      pyReplaceAux [a] [] fuel l = l.filter (fun c => c ≠ a) := by
  induction l with
  | nil => intro fuel _; cases fuel <;> rfl
  | cons c rest ih =>
    intro fuel h
    match fuel with
    | f + 1 =>
      have hr : rest.length ≤ f := by simpa using h
      simp only [pyReplaceAux, List.isPrefixOf, Bool.and_true, List.drop_succ_cons,
        List.drop_zero, List.filter_cons]
      by_cases hc : a = c
      · subst hc
        simp [ih f hr]
      · simp [hc, Ne.symm hc, ih f hr, beq_iff_eq]

theorem pyReplaceAux_single_single (a b : Char) (l : List Char) :
    ∀ fuel, l.length ≤ fuel →
      pyReplaceAux [a] [b] fuel l = l.map (fun c => if c = a then b else c) := by
  induction l with
  | nil => intro fuel _; cases fuel <;> rfl
  | cons c rest ih =>
    intro fuel h
    match fuel with
    | f + 1 =>
      have hr : rest.length ≤ f := by simpa using h
      simp only [pyReplaceAux, List.isPrefixOf, Bool.and_true, List.drop_succ_cons,
        List.drop_zero, List.map_cons]
      by_cases hc : a = c
      · subst hc
        simp [ih f hr]
      · simp [hc, Ne.symm hc, ih f hr, beq_iff_eq]

theorem pyReplace_char_empty (s : String) (a : Char) :
    pyReplace s (String.mk [a]) (String.mk []) =
      String.mk (s.data.filter (fun c => c ≠ a)) :=
  congrArg String.mk (pyReplaceAux_single_empty a s.data s.data.length le_rfl)

theorem pyReplace_char_char (s : String) (a b : Char) :
    pyReplace s (String.mk [a]) (String.mk [b]) =
      String.mk (s.data.map (fun c => if c = a then b else c)) :=
  congrArg String.mk (pyReplaceAux_single_single a b s.data s.data.length le_rfl)

theorem sanitizeTitle_map (t : String) :
    sanitizeTitle t =
      String.mk (t.data.map (fun c => if c = '/' ∨ c = '\\' then '_' else c)) := by
  unfold sanitizeTitle
  rw [show ("/" : String) = String.mk ['/'] from rfl,
    show ("\\" : String) = String.mk ['\\'] from rfl,
    show ("_" : String) = String.mk ['_'] from rfl,
    pyReplace_char_char, pyReplace_char_char]
  show String.mk ((t.data.map _).map _) = _
  rw [List.map_map]
  congr 1
  apply List.map_congr_left
  intro c _
  by_cases h1 : c = '/' <;> by_cases h2 : c = '\\' <;> simp_all [Function.comp]

theorem formatString_removes_all_p (q : String) (hq : pyTruthy (some q) = true)
    (hna : q ≠ "audio") :
    formatString (some q) =
      "bestvideo[height<=" ++ String.mk (q.data.filter (fun c => c ≠ 'p')) ++
        "]+bestaudio/bestvideo+bestaudio/best" := by
  unfold formatString
  rw [if_neg (by simpa using hna), if_pos hq]
  rw [show ((some q).getD "") = q from rfl,
    show ("p" : String) = String.mk ['p'] from rfl,
    show ("" : String) = String.mk [] from rfl,
    pyReplace_char_empty]

theorem mem_osRemove (fs : List String) (p q : String) :
    q ∈ osRemove fs p ↔ q ∈ fs ∧ q ≠ p := by
  simp [osRemove, List.mem_filter]

theorem mem_removeIfExists (fs : List String) (p q : String) :
    q ∈ removeIfExists fs p ↔ q ∈ fs ∧ q ≠ p := by
  unfold removeIfExists
  split_ifs with h
  · exact mem_osRemove fs p q
  · constructor
    · intro hq
      exact ⟨hq, fun he => h (he ▸ hq)⟩
    · intro hq
      exact hq.1

theorem mem_errorCleanup (fs : List String) (p q : String) :
    q ∈ errorCleanup fs p ↔
      q ∈ fs ∧ q ≠ p ∧ q ≠ pyReplace p ".mp4" ".mp3" := by
  unfold errorCleanup
  rw [mem_removeIfExists, mem_removeIfExists]
  tauto

theorem errorCleanup_removes (fs : List String) (p : String) :
    p ∉ errorCleanup fs p ∧ pyReplace p ".mp4" ".mp3" ∉ errorCleanup fs p := by
  constructor
  · intro hmem
    exact absurd rfl ((mem_errorCleanup fs p p).mp hmem).2.1
  · intro hmem
    exact absurd rfl ((mem_errorCleanup fs p _).mp hmem).2.2

theorem mainFormats_eq (l : List Format) :
    mainFormats l = (l.filter mainKeep).map projectFormat := by
  induction l with
  | nil => rfl
  | cons f rest ih =>
    by_cases h : mainKeep f <;> simp [mainFormats, List.filter_cons, h, ih]

theorem appKeep_eq_mainKeep (f : Format)
    (h : pyTruthy (pyGet f.resolution) = true ∨ pyGetD f.format_note "" ≠ none) :
    appKeep f = .ok (mainKeep f) := by
  unfold appKeep mainKeep
  by_cases hr : pyTruthy (pyGet f.resolution) = true
  · simp [hr]
  · have hr' : pyTruthy (pyGet f.resolution) = false := by simpa using hr
    rw [hr'] at h ⊢
    rcases h with h | h
    · exact absurd h (by simp)
    · rcases hn : f.format_note with - | (- | v)
      · rfl
      · rw [hn] at h
        exact absurd rfl h
      · by_cases hv : v = ""
        · subst hv
          rfl
        · simp [pyGetD, pyGet, pyTruthy, hv]

theorem appFormats_eq (l : List Format)
    (h : ∀ f ∈ l, pyTruthy (pyGet f.resolution) = true ∨ pyGetD f.format_note "" ≠ none) :
    appFormats l = .ok ((l.filter mainKeep).map projectFormat) := by
  induction l with
  | nil => rfl
  | cons f rest ih =>
    have hf := h f (by simp)
    have hrest := ih (fun g hg => h g (by simp [hg]))
    by_cases hk : mainKeep f <;>
      simp [appFormats, appKeep_eq_mainKeep f hf, hrest, List.filter_cons, hk]

end JD

/-!
Claim theorems.
-/

namespace JD

/-- C3: for quality absent, "audio", "720p" and "1080p" the format-selection
step produces exactly the four documented selector expressions. -/
theorem c3_format_mapping :
    formatString none = "bestvideo+bestaudio/best"
    ∧ formatString (some "audio") = "bestaudio/best"
    ∧ formatString (some "720p") =
        "bestvideo[height<=720]+bestaudio/bestvideo+bestaudio/best"
    ∧ formatString (some "1080p") =
        "bestvideo[height<=1080]+bestaudio/bestvideo+bestaudio/best" := by
  decide

/-- C4 counterexample: the claim says only a trailing "p" is stripped, so
quality "720p60" would keep its inner "p" and give height bound "720p60";
the code removes every "p" and gives "72060". -/
theorem c4_nontrailing_p_counterexample :
    formatString (some "720p60") =
        "bestvideo[height<=72060]+bestaudio/bestvideo+bestaudio/best"
    ∧ formatString (some "720p60") ≠
        "bestvideo[height<=720p60]+bestaudio/bestvideo+bestaudio/best" := by
  decide

/-- C4 (amended): for every present, non-empty quality other than "audio",
the height bound is the quality string with EVERY occurrence of the character
"p" removed (not only a trailing suffix), spliced uninterpreted into the
selector expression. -/
theorem c4_removes_every_p (q : String) (hq : pyTruthy (some q) = true)
    (hna : q ≠ "audio") :
    formatString (some q) =
      "bestvideo[height<=" ++ String.mk (q.data.filter (fun c => c ≠ 'p')) ++
        "]+bestaudio/bestvideo+bestaudio/best" :=
  formatString_removes_all_p q hq hna

/-- C4 witness: the amended claim evaluated at quality "720p60". -/
theorem c4_removes_every_p_witness :
    formatString (some "720p60") =
      "bestvideo[height<=72060]+bestaudio/bestvideo+bestaudio/best" :=
  (c4_removes_every_p "720p60" (by decide) (by decide)).trans (by decide)

/-- C7: temp artifact paths built from distinct identifiers are distinct, and
each path is the shared temp directory joined with the identifier followed by
".mp4" (no other input enters the construction). -/
theorem c7_temp_path_unique :
    (∀ tempDir u1 u2 : String, u1 ≠ u2 →
        tempFilepath tempDir u1 ≠ tempFilepath tempDir u2)
    ∧ (∀ tempDir u : String,
        tempFilepath tempDir u = tempDir ++ "/" ++ (u ++ ".mp4")) := by
  constructor
  · intro tempDir u1 u2 h he
    apply h
    unfold tempFilepath osPathJoin at he
    exact string_append_right_cancel (string_append_left_cancel he)
  · intro tempDir u
    rfl

/-- C7 witness: two concrete distinct identifiers give distinct paths. -/
theorem c7_temp_path_unique_witness :
    tempFilepath "temp" "a" ≠ tempFilepath "temp" "b" :=
  c7_temp_path_unique.1 "temp" "a" "b" (by decide)

/-- C8: a failing post-response deletion is swallowed: the app.py hook
returns the already-produced response unchanged for every deletion outcome
and leaves the filesystem untouched on failure, and the main.py background
task likewise leaves the filesystem untouched on failure; no error reaches
the caller. -/
theorem c8_cleanup_error_swallowed :
    (∀ (response : HttpResult) (fs : List String) (path : String),
        cleanup response fs path false = (response, fs))
    ∧ (∀ (response : HttpResult) (fs : List String) (path : String) (removeOk : Bool),
        (cleanup response fs path removeOk).1 = response)
    ∧ (∀ (fs : List String) (path : String), cleanup_file fs path false = fs) := by
  refine ⟨fun r fs p => rfl, fun r fs p ok => ?_, fun fs p => ?_⟩
  · cases ok <;> rfl
  · unfold cleanup_file
    split_ifs with h <;> rfl

/-- C9: a present-but-empty quality behaves exactly like an absent quality:
the whole download handler is extensionally the same, the option bag is the
same (in particular no postprocessor), the selector is
"bestvideo+bestaudio/best", and the filename derivation (hence the ".mp4"
extension) is the same. -/
theorem c9_empty_quality :
    (∀ (tempDir u : String) (url : Option String) (engine : YdlOpts → EngineResult)
        (fs : List String),
        download_video tempDir u url (some "") engine fs =
          download_video tempDir u url none engine fs)
    ∧ (∀ p : String, build_ydl_opts (some "") p = build_ydl_opts none p)
    ∧ formatString (some "") = "bestvideo+bestaudio/best"
    ∧ (∀ p : String, (build_ydl_opts (some "") p).postprocessors = [])
    ∧ (∀ md : Metadata, finalFilename md (some "") = finalFilename md none) := by
  refine ⟨fun tempDir u url engine fs => rfl, fun p => rfl, by decide, fun p => rfl,
    fun md => rfl⟩

/-- C1 (amended): when the extraction call itself raises — any exception
before the audio extension rewrite — the handler deletes the expected ".mp4"
path if it exists and the expected ".mp3" path if it exists, answers 500 with
the underlying message, and registers no cleanup; neither candidate artifact
remains. (After the rewrite, i.e. quality == "audio" with a post-extraction
exception, only the ".mp3" candidate is deleted; see the counterexample.) -/
theorem c1_error_path_cleanup (tempDir u : String) (url quality : Option String)
    (engine : YdlOpts → EngineResult) (msg : String) (fsAfter fs : List String)
    (hurl : pyTruthy url = true)
    (heng : engine (build_ydl_opts quality (tempFilepath tempDir u)) = .err msg fsAfter) :
    (download_video tempDir u url quality engine fs).response =
        .serverError
          "Failed to process the video. The URL may be private, invalid, or the site may have updated."
          msg
      ∧ tempFilepath tempDir u ∉ (download_video tempDir u url quality engine fs).fs
      ∧ pyReplace (tempFilepath tempDir u) ".mp4" ".mp3"
          ∉ (download_video tempDir u url quality engine fs).fs
      ∧ (download_video tempDir u url quality engine fs).cleanupRegistered = none := by
  unfold download_video
  rw [hurl]
  rw [if_neg (by decide : ¬(true = false))]
  rw [heng]
  exact ⟨rfl, (errorCleanup_removes fsAfter _).1, (errorCleanup_removes fsAfter _).2, rfl⟩

/-- C1 witness: a concrete failed extraction (audio quality, engine left a
partial ".mp4") is answered with the 500 payload carrying the message. -/
theorem c1_error_path_cleanup_witness :
    (download_video "temp" "a1b2" (some "u") (some "audio")
        (fun _ => .err "network failure" ["temp/a1b2.mp4"]) []).response =
      .serverError
        "Failed to process the video. The URL may be private, invalid, or the site may have updated."
        "network failure" :=
  (c1_error_path_cleanup "temp" "a1b2" (some "u") (some "audio") _
    "network failure" ["temp/a1b2.mp4"] [] (by decide) rfl).1

/-- C1 counterexample: quality "audio", the engine succeeds leaving both
candidate files, and the filename derivation then raises (null title). The
error path completes with the 500 payload, yet the request's ".mp4" artifact
"d/a1b2.mp4" is still on disk: the handler only consulted the rewritten
".mp3" path, so an artifact referencing the request remains. -/
theorem c1_orphan_counterexample :
    (download_video "d" "a1b2" (some "u") (some "audio")
        (fun _ => .ok { title := some none } ["d/a1b2.mp4", "d/a1b2.mp3"]) []).fs =
      ["d/a1b2.mp4"]
    ∧ (download_video "d" "a1b2" (some "u") (some "audio")
        (fun _ => .ok { title := some none } ["d/a1b2.mp4", "d/a1b2.mp3"]) []).response =
      .serverError
        "Failed to process the video. The URL may be private, invalid, or the site may have updated."
        "AttributeError: NoneType object has no attribute replace"
    ∧ tempFilepath "d" "a1b2" = "d/a1b2.mp4" := by
  decide

/-- C2: for every successful download the suggested filename is the metadata
title (default "media" only when the key is absent) with every "/" and every
"\" replaced by "_", followed by ".mp3" iff quality == "audio" and ".mp4"
otherwise — independently of the files the engine actually produced
(`fsAfter` is arbitrary). -/
theorem c2_final_filename (tempDir u : String) (url quality : Option String)
    (engine : YdlOpts → EngineResult) (info : Metadata) (fsAfter fs : List String)
    (t : String)
    (hurl : pyTruthy url = true)
    (heng : engine (build_ydl_opts quality (tempFilepath tempDir u)) = .ok info fsAfter)
    (htitle : pyGetD info.title "media" = some t) :
    (download_video tempDir u url quality engine fs).response =
      .fileResponse (trackedPath tempDir u quality)
        (String.mk (t.data.map (fun c => if c = '/' ∨ c = '\\' then '_' else c)) ++
          (if quality = some "audio" then ".mp3" else ".mp4")) := by
  have hff : finalFilename info quality =
      .ok (sanitizeTitle t ++ (if quality = some "audio" then ".mp3" else ".mp4")) := by
    unfold finalFilename
    rw [htitle]
  unfold download_video
  rw [hurl]
  rw [if_neg (by decide : ¬(true = false))]
  simp only [heng, hff]
  rw [sanitizeTitle_map]

/-- C2 witness: the spec example — title "My/Cool\Song", quality "audio" —
yields the suggested filename "My_Cool_Song.mp3". -/
theorem c2_final_filename_witness :
    (download_video "temp" "a1b2" (some "u") (some "audio")
        (fun _ => .ok { title := some (some "My/Cool\\Song") } ["temp/a1b2.mp3"]) []).response =
      .fileResponse "temp/a1b2.mp3" "My_Cool_Song.mp3" :=
  (c2_final_filename "temp" "a1b2" (some "u") (some "audio") _
      { title := some (some "My/Cool\\Song") } ["temp/a1b2.mp3"] [] "My/Cool\\Song"
      (by decide) rfl rfl).trans (by decide)

/-- C5: a missing or empty url is answered with the 400 "No URL provided."
payload by all three handlers, with the filesystem untouched, no cleanup
registered and the engine never consulted (the result is the same for every
engine behaviour). -/
theorem c5_url_validation :
    (∀ (tempDir u : String) (url quality : Option String)
        (engine : YdlOpts → EngineResult) (fs : List String),
        pyTruthy url = false →
          download_video tempDir u url quality engine fs =
            { response := .badRequest "No URL provided.", fs := fs,
              cleanupRegistered := none })
    ∧ (∀ (url : Option String) (engine : FetchResult),
        pyTruthy url = false → app_get_info url engine = .badRequest "No URL provided.")
    ∧ (∀ (url : Option String) (engine : FetchResult),
        pyTruthy url = false → main_get_info url engine = .badRequest "No URL provided.") := by
  refine ⟨fun tempDir u url quality engine fs h => ?_, fun url engine h => ?_,
    fun url engine h => ?_⟩
  · unfold download_video
    rw [h, if_pos rfl]
  · unfold app_get_info
    rw [h, if_pos rfl]
  · unfold main_get_info
    rw [h, if_pos rfl]

/-- C5 witness: the three handlers at a concrete empty or missing url. -/
theorem c5_url_validation_witness :
    download_video "temp" "a1b2" (some "") none (fun _ => .err "net" []) ["x"] =
        { response := .badRequest "No URL provided.", fs := ["x"],
          cleanupRegistered := none }
    ∧ app_get_info none (.err "net") = .badRequest "No URL provided."
    ∧ main_get_info (some "") (.ok {}) = .badRequest "No URL provided." :=
  ⟨c5_url_validation.1 "temp" "a1b2" (some "") none (fun _ => .err "net" []) ["x"]
      (by decide),
    c5_url_validation.2.1 none (.err "net") (by decide),
    c5_url_validation.2.2 (some "") (.ok {}) (by decide)⟩

/-- C6 counterexample: a metadata whose single format entry has the note key
present with value None (and no resolution). The claim says the entry is
excluded and the operation still succeeds; the Flask handler (app.py) instead
raises AttributeError inside the comprehension and answers 500. -/
theorem c6_null_note_counterexample :
    app_get_info (some "u") (.ok { formats := [{ format_note := some none }] }) =
        .serverError "Failed to fetch video information. The URL might be private or invalid."
          "AttributeError: NoneType object has no attribute startswith"
    ∧ app_get_info (some "u") (.ok { formats := [{ format_note := some none }] }) ≠
        .ok none none [] := by
  decide

/-- C6 (amended): the FastAPI handler (main.py) returns exactly the entries
with truthy resolution or a non-null note starting with "audio only",
projected to the public fields in the original order, and always succeeds;
the Flask handler (app.py) does the same provided no entry combines a falsy
resolution with a note key holding None — such an entry makes app.py fail
with 500 instead of being excluded. -/
theorem c6_info_filter (url : Option String) (md : Metadata)
    (hurl : pyTruthy url = true) :
    main_get_info url (.ok md) =
        .ok (pyGet md.title) (pyGet md.thumbnail)
          ((md.formats.filter mainKeep).map projectFormat)
    ∧ ((∀ f ∈ md.formats,
          pyTruthy (pyGet f.resolution) = true ∨ pyGetD f.format_note "" ≠ none) →
        app_get_info url (.ok md) =
          .ok (pyGet md.title) (pyGet md.thumbnail)
            ((md.formats.filter mainKeep).map projectFormat)) := by
  constructor
  · unfold main_get_info
    rw [hurl]
    rw [if_neg (by decide : ¬(true = false))]
    show InfoResult.ok (pyGet md.title) (pyGet md.thumbnail) (mainFormats md.formats) = _
    rw [mainFormats_eq]
  · intro h
    unfold app_get_info
    rw [hurl]
    rw [if_neg (by decide : ¬(true = false))]
    simp only [appFormats_eq md.formats h]

/-- C6 witness: the spec example — formats 720p / "audio only, low" /
"storyboard" — keeps exactly the first two entries, in order. -/
theorem c6_info_filter_witness :
    main_get_info (some "u")
        (.ok { formats :=
          [ { resolution := some (some "720p") },
            { resolution := some none, format_note := some (some "audio only, low") },
            { resolution := some none, format_note := some (some "storyboard") } ] }) =
      .ok none none
        [ { format_id := none, ext := none, resolution := some "720p", note := none,
            filesize := none },
          { format_id := none, ext := none, resolution := none,
            note := some "audio only, low", filesize := none } ] :=
  ((c6_info_filter (some "u")
      { formats :=
        [ { resolution := some (some "720p") },
          { resolution := some none, format_note := some (some "audio only, low") },
          { resolution := some none, format_note := some (some "storyboard") } ] }
      (by decide)).1).trans (by decide)

/-- C10: when extraction succeeds but the metadata title key is present with
value None, the filename derivation raises instead of defaulting to "media":
the request is answered 500 with the AttributeError message, no file response
is produced, the tracked artifact path is deleted, and no cleanup is
registered. -/
theorem c10_null_title (tempDir u : String) (url quality : Option String)
    (engine : YdlOpts → EngineResult) (md : Metadata) (fsAfter fs : List String)
    (hurl : pyTruthy url = true)
    (htitle : md.title = some none)
    (heng : engine (build_ydl_opts quality (tempFilepath tempDir u)) = .ok md fsAfter) :
    (download_video tempDir u url quality engine fs).response =
        .serverError
          "Failed to process the video. The URL may be private, invalid, or the site may have updated."
          "AttributeError: NoneType object has no attribute replace"
      ∧ (∀ p n, (download_video tempDir u url quality engine fs).response ≠
          .fileResponse p n)
      ∧ trackedPath tempDir u quality ∉ (download_video tempDir u url quality engine fs).fs
      ∧ (download_video tempDir u url quality engine fs).cleanupRegistered = none := by
  have hff : finalFilename md quality =
      .error "AttributeError: NoneType object has no attribute replace" := by
    unfold finalFilename
    rw [htitle]
    rfl
  unfold download_video
  rw [hurl]
  rw [if_neg (by decide : ¬(true = false))]
  simp only [heng, hff]
  exact ⟨trivial, fun p n hcontra => by simp at hcontra,
    (errorCleanup_removes fsAfter _).1, trivial⟩

/-- C10 witness: a concrete request whose metadata is the dictionary with
title key present and None. -/
theorem c10_null_title_witness :
    (download_video "temp" "a1b2" (some "u") none
        (fun _ => .ok { title := some none } ["temp/a1b2.mp4"]) []).response =
      .serverError
        "Failed to process the video. The URL may be private, invalid, or the site may have updated."
        "AttributeError: NoneType object has no attribute replace" :=
  (c10_null_title "temp" "a1b2" (some "u") none _ { title := some none }
    ["temp/a1b2.mp4"] [] (by decide) rfl rfl).1

end JD
